import Mathlib

/-!
Verification of the Basketball Free Throw Haptic Training System
(`src/main.cpp`, `src/sensors.h`, `src/haptic.h`, `src/data_logger.h`).

Doubles are embedded as rationals (the spec does not promise bit-identical
float behaviour, only the documented formulas), C++ `int`/`unsigned long`
as `Int`/`Nat`, and the `rand()` calls of the simulation stubs as explicit
oracle inputs.  Global mutable state becomes an explicit `GlobalState`
record threaded through each handler; handlers that only print are the
identity on the modelled state.
-/

namespace FreeThrow

/-- System states, from the `SystemState` enum of `src/main.cpp`. -/
inductive SystemState
  | STANDBY
  | CALIBRATION
  | TRAINING
  | DATA_REVIEW
  deriving DecidableEq, Repr

/-- Per-shot measurements, from `struct FreeThrowData` in `src/main.cpp`. -/
structure FreeThrowData where
  elbowAngle : ℚ
  wristAngle : ℚ
  releaseTiming : ℚ
  followThrough : ℚ
  bodyBalance : ℚ
  wasSuccessful : Bool
  shotDuration : ℕ
  peakAcceleration : ℚ
  deriving DecidableEq, Repr

/-- Calibration baseline, from `struct CalibrationData` in `src/main.cpp`
(the translation unit that `handleCalibration` compiles against). -/
structure CalibrationData where
  avgElbowAngle : ℚ
  avgWristAngle : ℚ
  avgReleaseTiming : ℚ
  avgFollowThrough : ℚ
  avgBodyBalance : ℚ
  stdDevElbow : ℚ
  stdDevWrist : ℚ
  stdDevTiming : ℚ
  isValid : Bool
  deriving DecidableEq, Repr

/-- The zero-initialized global `calibrationData` of `src/main.cpp`
(a global object with no explicit initializer is zero-initialized). -/
def initCalibrationData : CalibrationData :=
  { avgElbowAngle := 0, avgWristAngle := 0, avgReleaseTiming := 0
    avgFollowThrough := 0, avgBodyBalance := 0
    stdDevElbow := 0, stdDevWrist := 0, stdDevTiming := 0
    isValid := false }

/-- `const double ELBOW_ANGLE_TOLERANCE = 5.0` (`src/main.cpp`). -/
def ELBOW_ANGLE_TOLERANCE : ℚ := 5

/-- `const double WRIST_ANGLE_TOLERANCE = 3.0` (`src/main.cpp`). -/
def WRIST_ANGLE_TOLERANCE : ℚ := 3

/-- `const int CALIBRATION_SAMPLES = 10` (`src/sensors.h`). -/
def CALIBRATION_SAMPLES : ℕ := 10

/-- `const int MOTION_THRESHOLD = 5000` (`src/sensors.h`). -/
def MOTION_THRESHOLD : ℚ := 5000

/-- `const int SHOT_DETECTION_THRESHOLD = 15000` (`src/sensors.h`). -/
def SHOT_DETECTION_THRESHOLD : ℚ := 15000

/-- `const int MOTION_TIMEOUT = 1000` ms (`src/sensors.h`). -/
def MOTION_TIMEOUT : ℕ := 1000

/-- `const int HAPTIC_1_PIN = 25` (upper arm, `src/haptic.h`). -/
def HAPTIC_1_PIN : ℕ := 25

/-- `const int HAPTIC_2_PIN = 26` (lower arm, `src/haptic.h`). -/
def HAPTIC_2_PIN : ℕ := 26

/-- `const int HAPTIC_3_PIN = 27` (wrist, `src/haptic.h`). -/
def HAPTIC_3_PIN : ℕ := 27

/-- Haptic feedback patterns, from the `HapticPattern` enum of `src/haptic.h`. -/
inductive HapticPattern
  | NONE
  | SINGLE_PULSE
  | DOUBLE_PULSE
  | TRIPLE_PULSE
  | CONTINUOUS
  | INCREASING
  | DECREASING
  | ALTERNATING
  | WAVE
  deriving DecidableEq, Repr

/-- `LIGHT = 64` from the `FeedbackIntensity` enum of `src/haptic.h`. -/
def LIGHT : ℤ := 64

/-- `MEDIUM = 128` from the `FeedbackIntensity` enum of `src/haptic.h`. -/
def MEDIUM : ℤ := 128

/-- `STRONG = 255` from the `FeedbackIntensity` enum of `src/haptic.h`. -/
def STRONG : ℤ := 255

/-- Feedback zones, from the `FeedbackZone` enum of `src/haptic.h`. -/
inductive FeedbackZone
  | UPPER_ARM
  | LOWER_ARM
  | WRIST
  | ALL_ZONES
  deriving DecidableEq, Repr

/-- An observable haptic command emitted by the control code: either a plain
`triggerHapticFeedback(pin, intensity, duration)` call or a
`triggerPatternFeedback(zone, pattern, intensity)` call (`src/haptic.h`). -/
inductive HapticEvent
  | feedback (pin : ℕ) (intensity : ℤ) (duration : ℕ)
  | patternFeedback (zone : FeedbackZone) (pat : HapticPattern) (intensity : ℤ)
  deriving DecidableEq, Repr

/-- `provideHapticFeedback` of `src/main.cpp` (lines 290-306), returning the
list of haptic commands it issues.  First match wins: elbow error beyond
tolerance fires a strong 300 ms pulse on `HAPTIC_1_PIN`; otherwise wrist
error beyond tolerance fires a medium 150 ms pulse on `HAPTIC_3_PIN`;
otherwise a light double pulse on all zones. -/
def provideHapticFeedback (shotData : FreeThrowData) (cal : CalibrationData) :
    List HapticEvent :=
  let elbowError := |shotData.elbowAngle - cal.avgElbowAngle|
  let wristError := |shotData.wristAngle - cal.avgWristAngle|
  if elbowError > ELBOW_ANGLE_TOLERANCE then
    [HapticEvent.feedback HAPTIC_1_PIN STRONG 300]
  else if wristError > WRIST_ANGLE_TOLERANCE then
    [HapticEvent.feedback HAPTIC_3_PIN MEDIUM 150]
  else
    [HapticEvent.patternFeedback FeedbackZone.ALL_ZONES HapticPattern.DOUBLE_PULSE LIGHT]

/-- The global mutable state of `src/main.cpp`: the file-scope globals
(`currentState`, `calibrationData`, `isCalibrated`, `shotCount`,
`lastShotTime`) together with the `static` locals of `handleCalibration`
(`calibrationShots`, `elbowSum`, `wristSum`, `timingSum`), plus a log of
the haptic commands issued so far. -/
structure GlobalState where
  currentState : SystemState
  calibrationData : CalibrationData
  isCalibrated : Bool
  shotCount : ℕ
  lastShotTime : ℕ
  calibrationShots : ℕ
  elbowSum : ℚ
  wristSum : ℚ
  timingSum : ℚ
  hapticLog : List HapticEvent
  deriving DecidableEq, Repr

/-- The program start state of `src/main.cpp`: globals zero-initialized,
`currentState = STANDBY`, `isCalibrated = false`, statics at zero. -/
def initialState : GlobalState :=
  { currentState := SystemState.STANDBY
    calibrationData := initCalibrationData
    isCalibrated := false
    shotCount := 0
    lastShotTime := 0
    calibrationShots := 0
    elbowSum := 0
    wristSum := 0
    timingSum := 0
    hapticLog := [] }

/-- One iteration of `handleCalibration` (`src/main.cpp`, lines 195-233).
The `detectShotMotion()` outcome and the shot data returned by
`analyzeShotForm()` are explicit inputs.  On a detected shot the static
counters and running sums are updated and a strong 100 ms pulse is issued;
on the 10th accumulated shot the averages are written into the global
`calibrationData`, `isValid` and `isCalibrated` become true, the system
returns to `STANDBY` and the statics are reset. -/
def handleCalibration (s : GlobalState) (motionDetected : Bool)
    (shotData : FreeThrowData) : GlobalState :=
  if motionDetected then
    let shots := s.calibrationShots + 1
    let eSum := s.elbowSum + shotData.elbowAngle
    let wSum := s.wristSum + shotData.wristAngle
    let tSum := s.timingSum + shotData.releaseTiming
    let s1 : GlobalState :=
      { s with
        calibrationShots := shots, elbowSum := eSum, wristSum := wSum
        timingSum := tSum
        hapticLog := s.hapticLog ++ [HapticEvent.feedback HAPTIC_1_PIN STRONG 100] }
    if shots ≥ 10 then
      { s1 with
        calibrationData :=
          { s1.calibrationData with
            avgElbowAngle := eSum / 10
            avgWristAngle := wSum / 10
            avgReleaseTiming := tSum / 10
            isValid := true }
        isCalibrated := true
        currentState := SystemState.STANDBY
        calibrationShots := 0, elbowSum := 0, wristSum := 0, timingSum := 0 }
    else s1
  else s

/-- A calibration run over a list of detected shots: `handleCalibration`
iterated with `motionDetected = true` for each shot (iterations in which
`detectShotMotion()` returns false leave the state unchanged). -/
def runCalibration (s : GlobalState) (shots : List FreeThrowData) : GlobalState :=
  shots.foldl (fun st sh => handleCalibration st true sh) s

/-- One iteration of `handleTraining` (`src/main.cpp`, lines 235-251).
If `isCalibrated` is false the handler prints a message, returns the
system to `STANDBY` and does nothing else; otherwise a detected shot is
analyzed, feedback is issued, and the shot counter and last-shot time are
updated. -/
def handleTraining (s : GlobalState) (motionDetected : Bool)
    (shotData : FreeThrowData) (now : ℕ) : GlobalState :=
  if s.isCalibrated = false then
    { s with currentState := SystemState.STANDBY }
  else if motionDetected then
    { s with
      hapticLog := s.hapticLog ++ provideHapticFeedback shotData s.calibrationData
      shotCount := s.shotCount + 1
      lastShotTime := now }
  else s

/-- `handleDataReview` (`src/main.cpp`, lines 253-263): prints the stats
and returns to `STANDBY`. -/
def handleDataReview (s : GlobalState) : GlobalState :=
  { s with currentState := SystemState.STANDBY }

/-- `cycleSystemState`'s transition on the state enum (`src/main.cpp`,
lines 324-342): `STANDBY → TRAINING → DATA_REVIEW → STANDBY`, and no
switch out of `CALIBRATION`. -/
def cycleState : SystemState → SystemState
  | SystemState.STANDBY => SystemState.TRAINING
  | SystemState.TRAINING => SystemState.DATA_REVIEW
  | SystemState.DATA_REVIEW => SystemState.STANDBY
  | SystemState.CALIBRATION => SystemState.CALIBRATION

/-- `cycleSystemState` acting on the global state. -/
def cycleSystemState (s : GlobalState) : GlobalState :=
  { s with currentState := cycleState s.currentState }

/-- The per-iteration external inputs of the main loop: the motion
detection outcome, the analyzed shot data, and the current `millis()`. -/
structure LoopInput where
  motionDetected : Bool
  shotData : FreeThrowData
  now : ℕ

/-- One iteration of `loop()` (`src/main.cpp`, lines 138-160):
`checkButtons` and `monitorBattery` touch none of the modelled state, the
switch dispatches on `currentState`, and `handleStandby` only prints. -/
def loopStep (s : GlobalState) (i : LoopInput) : GlobalState :=
  match s.currentState with
  | SystemState.STANDBY => s
  | SystemState.CALIBRATION => handleCalibration s i.motionDetected i.shotData
  | SystemState.TRAINING => handleTraining s i.motionDetected i.shotData i.now
  | SystemState.DATA_REVIEW => handleDataReview s

/-- States reachable from program start by iterating the main loop and by
pressing the mode button (`cycleSystemState`, the only caller-facing state
cycling operation declared in `src/main.cpp`). -/
inductive Reachable : GlobalState → Prop
  | init : Reachable initialState
  | step : ∀ s i, Reachable s → Reachable (loopStep s i)
  | cycle : ∀ s, Reachable s → Reachable (cycleSystemState s)

/-- Modelled from the spec: the shot start/end state machine
(`detectShotStart` / `detectShotEnd` are declared in `src/sensors.h` but
not implemented under `src`; `detectShotMotion` in `src/main.cpp` is a
`rand()`-based stand-in that the design notes say simulates the sensor
path).  Spec 4.2: states Idle and InShot; `startTime` of the shot in
progress; `belowSince` tracks how long the magnitude has stayed below
`MOTION_THRESHOLD` while in a shot. -/
structure ShotDetector where
  inShot : Bool
  startTime : ℕ
  belowSince : Option ℕ
  deriving DecidableEq, Repr

/-- The detector's initial (Idle) state. -/
def idleDetector : ShotDetector :=
  { inShot := false, startTime := 0, belowSince := none }

/-- Modelled from the spec: the absolute safety ceiling on a shot's
duration (spec 4.2, implementation-chosen constant; no value appears
under `src`). -/
def SHOT_SAFETY_CEILING : ℕ := 5000

/-- Modelled from the spec (4.2): one detector step on a filtered sample
with magnitude `mag` at time `t`.  Idle goes to InShot exactly when the
magnitude exceeds `SHOT_DETECTION_THRESHOLD`; InShot returns to Idle when
the magnitude has stayed below `MOTION_THRESHOLD` continuously for
`MOTION_TIMEOUT` ms or the elapsed time exceeds the safety ceiling. -/
def detectorStep (d : ShotDetector) (mag : ℚ) (t : ℕ) : ShotDetector :=
  if d.inShot = false then
    if mag > SHOT_DETECTION_THRESHOLD then
      { inShot := true, startTime := t, belowSince := none }
    else d
  else if t - d.startTime > SHOT_SAFETY_CEILING then
    { inShot := false, startTime := 0, belowSince := none }
  else if mag < MOTION_THRESHOLD then
    match d.belowSince with
    | none => { d with belowSince := some t }
    | some t0 =>
      if t - t0 ≥ MOTION_TIMEOUT then
        { inShot := false, startTime := 0, belowSince := none }
      else d
  else { d with belowSince := none }

/-- The detector run over a sequence of (magnitude, timestamp) samples. -/
def detectorRun (d : ShotDetector) (samples : List (ℚ × ℕ)) : ShotDetector :=
  samples.foldl (fun st sm => detectorStep st sm.1 sm.2) d

/-- Haptic motor record, from `struct HapticMotor` in `src/haptic.h`. -/
structure HapticMotor where
  pin : ℕ
  currentIntensity : ℤ
  isActive : Bool
  startTime : ℕ
  duration : ℕ
  pattern : HapticPattern
  deriving DecidableEq, Repr

/-- The `HapticMotor(int p)` constructor of `src/haptic.h`: intensity 0,
inactive, no pattern. -/
def HapticMotor.ofPin (p : ℕ) : HapticMotor :=
  { pin := p, currentIntensity := 0, isActive := false
    startTime := 0, duration := 0, pattern := HapticPattern.NONE }

/-- Clamp an intensity into [0,255] (spec 4.5: `update` clamps intensity
to [0,255]; the data-model invariant keeps it there at all times). -/
def clamp255 (x : ℤ) : ℤ := max 0 (min 255 x)

/-- Modelled from the spec (4.5): the instantaneous intensity of a pattern
at phase `elapsed` of `dur`, before clamping.  Pulse patterns alternate
on/off cycles evenly across the duration, Continuous holds the target,
Increasing/Decreasing ramp linearly (integer division; a zero duration
yields 0). -/
def patternIntensity (pat : HapticPattern) (target : ℤ) (elapsed dur : ℤ) : ℤ :=
  match pat with
  | HapticPattern.NONE => 0
  | HapticPattern.SINGLE_PULSE => if 2 * elapsed < dur then target else 0
  | HapticPattern.DOUBLE_PULSE => if dur ≠ 0 ∧ (4 * elapsed / dur) % 2 = 0 then target else 0
  | HapticPattern.TRIPLE_PULSE => if dur ≠ 0 ∧ (6 * elapsed / dur) % 2 = 0 then target else 0
  | HapticPattern.CONTINUOUS => target
  | HapticPattern.INCREASING => if dur ≠ 0 then target * elapsed / dur else 0
  | HapticPattern.DECREASING => if dur ≠ 0 then target * (dur - elapsed) / dur else 0
  | HapticPattern.ALTERNATING => if (elapsed / 200) % 2 = 0 then target else 0
  | HapticPattern.WAVE => target

/-- Modelled from the spec: applying a trigger to one motor
(`setMotorPattern` is declared in `src/haptic.h` but not implemented
under `src`).  The commanded intensity is brought into [0,255] per the
data-model invariant; the motor becomes active with the given pattern,
start time and duration. -/
def motorTrigger (m : HapticMotor) (intensity : ℤ) (dur now : ℕ)
    (pat : HapticPattern) : HapticMotor :=
  { m with currentIntensity := clamp255 intensity, isActive := true
           startTime := now, duration := dur, pattern := pat }

/-- A motor forced to Idle: inactive, intensity 0, no pattern
(spec 4.5: `emergencyStop()` forces all motors to Idle). -/
def motorIdle (m : HapticMotor) : HapticMotor :=
  { m with currentIntensity := 0, isActive := false
           pattern := HapticPattern.NONE }

/-- Modelled from the spec (4.5): one `update(now)` step of a motor
(`updateHapticFeedback` is declared in `src/haptic.h` but not implemented
under `src`).  An inactive motor is untouched; an active motor whose
duration has elapsed is deactivated; otherwise its intensity is advanced
along the pattern phase and clamped to [0,255]. -/
def motorUpdate (m : HapticMotor) (now : ℕ) : HapticMotor :=
  if m.isActive = false then m
  else if now - m.startTime ≥ m.duration then motorIdle m
  else
    { m with currentIntensity :=
        clamp255 (patternIntensity m.pattern m.currentIntensity
          ((now : ℤ) - (m.startTime : ℤ)) (m.duration : ℤ)) }

/-- The haptic controller state: the global `motors` vector of
`src/haptic.h` plus the overheat guard (`isSystemOverheating`). -/
structure HapticSystem where
  motors : List HapticMotor
  overheated : Bool
  deriving DecidableEq, Repr

/-- Modelled from the spec: `emergencyStop()` (declared in `src/haptic.h`,
not implemented under `src`) forces every motor to Idle; the overheat
guard itself clears only when the temperature check does. -/
def emergencyStop (sys : HapticSystem) : HapticSystem :=
  { sys with motors := sys.motors.map motorIdle }

/-- Modelled from the spec: `triggerHapticFeedback(pin, intensity,
duration)` on the controller.  Spec 4.5: the overheat guard is checked
before applying any new trigger, and a tripped guard rejects the call. -/
def triggerHapticFeedback (sys : HapticSystem) (pin : ℕ) (intensity : ℤ)
    (dur now : ℕ) : HapticSystem :=
  if sys.overheated then sys
  else
    { sys with motors := sys.motors.map (fun m =>
        if m.pin = pin then motorTrigger m intensity dur now HapticPattern.CONTINUOUS
        else m) }

/-- Modelled from the spec: `updateHapticFeedback()` advances every motor;
the overheat guard is evaluated on every update and, when tripped, forces
all motors to Idle. -/
def updateHapticFeedback (sys : HapticSystem) (now : ℕ) : HapticSystem :=
  if sys.overheated then { sys with motors := sys.motors.map motorIdle }
  else { sys with motors := sys.motors.map (fun m => motorUpdate m now) }

/-- The controller operations a caller can perform: trigger a pin, advance
time, emergency-stop, or a change of the overheat guard reading. -/
inductive HapticOp
  | trig (pin : ℕ) (intensity : ℤ) (dur now : ℕ)
  | upd (now : ℕ)
  | estop
  | setOverheat (b : Bool)

/-- One controller operation applied to the system state. -/
def hapticStep (sys : HapticSystem) (op : HapticOp) : HapticSystem :=
  match op with
  | HapticOp.trig pin intensity dur now => triggerHapticFeedback sys pin intensity dur now
  | HapticOp.upd now => updateHapticFeedback sys now
  | HapticOp.estop => emergencyStop sys
  | HapticOp.setOverheat b => { sys with overheated := b }

/-- A sequence of controller operations applied in order. -/
def hapticRun (sys : HapticSystem) (ops : List HapticOp) : HapticSystem :=
  ops.foldl hapticStep sys

/-- True for the operation that clears the overheat guard. -/
def clearsOverheat : HapticOp → Bool
  | HapticOp.setOverheat false => true
  | _ => false

/-- Every motor of the system is within the [0,255] intensity range. -/
def intensityInRange (sys : HapticSystem) : Prop :=
  ∀ m ∈ sys.motors, 0 ≤ m.currentIntensity ∧ m.currentIntensity ≤ 255

/-- Every motor of the system is Idle: inactive with intensity 0. -/
def allIdle (sys : HapticSystem) : Prop :=
  ∀ m ∈ sys.motors, m.isActive = false ∧ m.currentIntensity = 0

/-- The five `rand()` draws consumed by one `analyzeShotForm()` call
(`src/main.cpp`, lines 277-288), made explicit oracle inputs. -/
structure RandInput where
  r1 : ℕ
  r2 : ℕ
  r3 : ℕ
  r4 : ℕ
  r5 : ℕ
  deriving DecidableEq, Repr

/-- `analyzeShotForm` of `src/main.cpp` (lines 277-288) as a function of
its oracle draws: elbow 90 + r%20 - 10, wrist 45 + r%10 - 5, timing
1.5 + (r%100)/1000, follow-through 0.8 + (r%40)/100, peak accel
15 + r%10.  The fields the C++ function leaves unassigned are modelled
as zero-initialized. -/
def analyzeShotForm (r : RandInput) : FreeThrowData :=
  { elbowAngle := 90 + ((r.r1 % 20 : ℤ) - 10 : ℤ)
    wristAngle := 45 + ((r.r2 % 10 : ℤ) - 5 : ℤ)
    releaseTiming := 3 / 2 + (r.r3 % 100 : ℚ) / 1000
    followThrough := 4 / 5 + (r.r4 % 40 : ℚ) / 100
    bodyBalance := 0
    wasSuccessful := false
    shotDuration := 0
    peakAcceleration := 15 + (r.r5 % 10 : ℚ) }

/-- The input-output relation of `analyzeShotForm`: for a fixed tuple of
oracle draws the analysis may produce a result related to it. -/
inductive AnalyzeRel : RandInput → FreeThrowData → Prop
  | run : ∀ r, AnalyzeRel r (analyzeShotForm r)

/-- 3-D vector, from `struct Vector3D` in `src/sensors.h`. -/
structure Vector3D where
  x : ℚ
  y : ℚ
  z : ℚ
  deriving DecidableEq, Repr

/-- Modelled from the spec (4.3): uniform index-based resampling of a
trajectory to `n` points (`analyzeTrajectory` and the trajectory
accumulator are declared in `src/sensors.h` but not implemented under
`src`). -/
def resampleTrajectory (traj : List Vector3D) (n : ℕ) : List Vector3D :=
  (List.range n).map (fun i => traj.getD (i * traj.length / n) ⟨0, 0, 0⟩)

/-- Pointwise sum of two equal-length point lists (zipped). -/
def addPoints (a b : List Vector3D) : List Vector3D :=
  List.zipWith (fun p q => Vector3D.mk (p.x + q.x) (p.y + q.y) (p.z + q.z)) a b

/-- Modelled from the spec (4.3): the averaged optimal trajectory of a
calibration run: each contributed trajectory is resampled to `n` points
and the resampled trajectories are averaged pointwise. -/
def averageTrajectories (ts : List (List Vector3D)) (n : ℕ) : List Vector3D :=
  let k := ts.length
  let summed := (ts.map (fun t => resampleTrajectory t n)).foldl addPoints
    (List.replicate n (Vector3D.mk 0 0 0))
  summed.map (fun p => Vector3D.mk (p.x / k) (p.y / k) (p.z / k))

/-- The input-output relation of the trajectory resampling and averaging
step: for a fixed list of contributed trajectories and target length the
averaging may produce a result related to it. -/
inductive TrajAvgRel : List (List Vector3D) → ℕ → List Vector3D → Prop
  | run : ∀ ts n, TrajAvgRel ts n (averageTrajectories ts n)

/-! ### Lemmas about calibration runs -/

theorem runCalibration_nil (s : GlobalState) : runCalibration s [] = s := rfl

theorem runCalibration_cons (s : GlobalState) (sh : FreeThrowData)
    (rest : List FreeThrowData) :
    runCalibration s (sh :: rest) = runCalibration (handleCalibration s true sh) rest := rfl

/-- A detected calibration shot that does not reach the 10-shot mark only
updates the static accumulators and the haptic log. -/
theorem handleCalibration_below (s : GlobalState) (sh : FreeThrowData)
    (h : s.calibrationShots + 1 < 10) :
    handleCalibration s true sh =
      { s with
        calibrationShots := s.calibrationShots + 1
        elbowSum := s.elbowSum + sh.elbowAngle
        wristSum := s.wristSum + sh.wristAngle
        timingSum := s.timingSum + sh.releaseTiming
        hapticLog := s.hapticLog ++ [HapticEvent.feedback HAPTIC_1_PIN STRONG 100] } := by
  have hn : ¬ s.calibrationShots + 1 ≥ 10 := by omega
  simp [handleCalibration, hn]

/-- A calibration run that stays strictly below 10 accumulated shots
leaves the global calibration data, the calibrated flag and the system
state untouched, and advances exactly the static accumulators. -/
theorem runCalibration_short (L : List FreeThrowData) : ∀ s : GlobalState,
    s.calibrationShots + L.length < 10 →
    (runCalibration s L).calibrationData = s.calibrationData ∧
    (runCalibration s L).isCalibrated = s.isCalibrated ∧
    (runCalibration s L).calibrationShots = s.calibrationShots + L.length ∧
    (runCalibration s L).currentState = s.currentState := by
  induction L with
  | nil => intro s _; simp [runCalibration]
  | cons sh rest ih =>
    intro s h
    rw [runCalibration_cons, handleCalibration_below s sh (by simp at h; omega)]
    have := ih { s with
        calibrationShots := s.calibrationShots + 1
        elbowSum := s.elbowSum + sh.elbowAngle
        wristSum := s.wristSum + sh.wristAngle
        timingSum := s.timingSum + sh.releaseTiming
        hapticLog := s.hapticLog ++ [HapticEvent.feedback HAPTIC_1_PIN STRONG 100] }
      (by simp at h ⊢; omega)
    refine ⟨this.1, this.2.1, ?_, this.2.2.2⟩
    rw [this.2.2.1]
    simp
    omega

/-- A calibration run whose detected shots reach the 10-shot mark exactly
ends with a valid profile, the calibrated flag set, and the system back
in standby. -/
theorem runCalibration_complete (L : List FreeThrowData) : ∀ s : GlobalState,
    s.calibrationShots + L.length = 10 → L ≠ [] →
    (runCalibration s L).calibrationData.isValid = true ∧
    (runCalibration s L).isCalibrated = true ∧
    (runCalibration s L).currentState = SystemState.STANDBY := by
  induction L with
  | nil => intro s _ hne; exact absurd rfl hne
  | cons sh rest ih =>
    intro s h _
    rw [runCalibration_cons]
    cases rest with
    | nil =>
      have h10 : s.calibrationShots + 1 ≥ 10 := by simp at h; omega
      simp [runCalibration, handleCalibration, h10]
    | cons a b =>
      rw [handleCalibration_below s sh (by simp at h; omega)]
      exact ih _ (by simp at h ⊢; omega) (by simp)

/-- C1: for every calibration run starting with a reset shot counter, a
run of fewer than 10 detected shots leaves the profile's valid flag and
the global `isCalibrated` flag exactly as they were (in particular never
sets them), and a run of exactly 10 detected shots sets both to true. -/
theorem calibration_valid_iff_ten_shots (s : GlobalState)
    (h : s.calibrationShots = 0) (L : List FreeThrowData) :
    (L.length < 10 →
      (runCalibration s L).calibrationData.isValid = s.calibrationData.isValid ∧
      (runCalibration s L).isCalibrated = s.isCalibrated) ∧
    (L.length = 10 →
      (runCalibration s L).calibrationData.isValid = true ∧
      (runCalibration s L).isCalibrated = true) := by
  constructor
  · intro hlen
    have hc := runCalibration_short L s (by omega)
    exact ⟨by rw [hc.1], hc.2.1⟩
  · intro hlen
    have hc := runCalibration_complete L s (by omega)
      (by intro hL; rw [hL] at hlen; simp at hlen)
    exact ⟨hc.1, hc.2.1⟩

/-- A fixed sample shot used to instantiate the calibration theorems. -/
def demoShot : FreeThrowData :=
  { elbowAngle := 90, wristAngle := 45, releaseTiming := 3 / 2
    followThrough := 1, bodyBalance := 0, wasSuccessful := false
    shotDuration := 0, peakAcceleration := 20 }

/-- Witness for C1: from the program start state a 3-shot run leaves the
flags false and a 10-shot run sets both. -/
theorem calibration_valid_iff_ten_shots_witness :
    ((runCalibration initialState (List.replicate 3 demoShot)).calibrationData.isValid =
      initialState.calibrationData.isValid ∧
     (runCalibration initialState (List.replicate 3 demoShot)).isCalibrated =
      initialState.isCalibrated) ∧
    ((runCalibration initialState (List.replicate 10 demoShot)).calibrationData.isValid = true ∧
     (runCalibration initialState (List.replicate 10 demoShot)).isCalibrated = true) :=
  ⟨(calibration_valid_iff_ten_shots initialState rfl (List.replicate 3 demoShot)).1
      (by simp),
   (calibration_valid_iff_ten_shots initialState rfl (List.replicate 10 demoShot)).2
      (by simp)⟩

/-- C6: at every point of a calibration run (started with a reset shot
counter) before the 10th detected shot, the previously stored calibration
profile and the `isCalibrated` flag are unchanged, so an incomplete run
never exposes partial progress. -/
theorem recalibration_atomic (s : GlobalState) (h : s.calibrationShots = 0)
    (L : List FreeThrowData) (hL : L.length < 10) :
    (runCalibration s L).calibrationData = s.calibrationData ∧
    (runCalibration s L).isCalibrated = s.isCalibrated := by
  have hc := runCalibration_short L s (by omega)
  exact ⟨hc.1, hc.2.1⟩

/-- A previously calibrated state about to start a re-calibration run. -/
def recalibState : GlobalState :=
  { initialState with
    currentState := SystemState.CALIBRATION
    calibrationData :=
      { initCalibrationData with avgElbowAngle := 42, isValid := true }
    isCalibrated := true }

/-- Witness for C6: nine detected shots of a re-calibration run leave the
previous profile and flag byte-for-byte intact. -/
theorem recalibration_atomic_witness :
    (runCalibration recalibState (List.replicate 9 demoShot)).calibrationData =
      recalibState.calibrationData ∧
    (runCalibration recalibState (List.replicate 9 demoShot)).isCalibrated =
      recalibState.isCalibrated :=
  recalibration_atomic recalibState rfl (List.replicate 9 demoShot) (by simp)

/-- A calibration shot with the given elbow angle (other fields fixed). -/
def c2Shot (e : ℚ) : FreeThrowData :=
  { elbowAngle := e, wristAngle := 45, releaseTiming := 3 / 2
    followThrough := 1, bodyBalance := 0, wasSuccessful := false
    shotDuration := 0, peakAcceleration := 20 }

/-- Ten calibration shots whose elbow angles alternate between 80 and 100
degrees: mean 90, population standard deviation 10. -/
def c2Shots : List FreeThrowData :=
  [c2Shot 80, c2Shot 100, c2Shot 80, c2Shot 100, c2Shot 80,
   c2Shot 100, c2Shot 80, c2Shot 100, c2Shot 80, c2Shot 100]

/-- The program start state switched into calibration mode. -/
def calibModeState : GlobalState :=
  { initialState with currentState := SystemState.CALIBRATION }

/-- Modelled from the spec (4.3): the population variance of a list of
values, the square of the population standard deviation `finish()` is
specified to compute for each statistic. -/
def specPopVariance (xs : List ℚ) : ℚ :=
  let n : ℚ := xs.length
  let m := xs.sum / n
  ((xs.map fun x => (x - m) * (x - m)).sum) / n

/-- C2 (evidence of the divergence): completing calibration on ten shots
whose elbow angles alternate between 80 and 100 writes the correct mean
(90) and marks the profile valid, but leaves `stdDevElbow` at its
zero-initialized value even though the population standard deviation of
the inputs is 10 (population variance 100): `handleCalibration` never
computes any standard deviation. -/
theorem calibration_stddev_not_computed :
    (runCalibration calibModeState c2Shots).calibrationData.avgElbowAngle = 90 ∧
    (runCalibration calibModeState c2Shots).calibrationData.isValid = true ∧
    (runCalibration calibModeState c2Shots).isCalibrated = true ∧
    (runCalibration calibModeState c2Shots).calibrationData.stdDevElbow = 0 ∧
    specPopVariance (c2Shots.map FreeThrowData.elbowAngle) = 100 := by
  refine ⟨?_, ?_, ?_, ?_, ?_⟩ <;>
    norm_num [runCalibration, c2Shots, c2Shot, handleCalibration, calibModeState,
      initialState, initCalibrationData, specPopVariance]

/-! ### Training precondition, feedback policy, shot detection -/

/-- C3: when `isCalibrated` is false, one `handleTraining` iteration
triggers no haptic feedback, leaves the shot counter and the calibration
data unchanged, and returns the system to `STANDBY` instead of analyzing
the shot. -/
theorem training_not_calibrated_rejected (s : GlobalState)
    (h : s.isCalibrated = false) (motionDetected : Bool)
    (shotData : FreeThrowData) (now : ℕ) :
    (handleTraining s motionDetected shotData now).currentState = SystemState.STANDBY ∧
    (handleTraining s motionDetected shotData now).hapticLog = s.hapticLog ∧
    (handleTraining s motionDetected shotData now).shotCount = s.shotCount ∧
    (handleTraining s motionDetected shotData now).calibrationData = s.calibrationData := by
  simp [handleTraining, h]

/-- Witness for C3: the uncalibrated start state with a detected shot. -/
theorem training_not_calibrated_rejected_witness :
    (handleTraining initialState true demoShot 5).currentState = SystemState.STANDBY ∧
    (handleTraining initialState true demoShot 5).hapticLog = initialState.hapticLog ∧
    (handleTraining initialState true demoShot 5).shotCount = initialState.shotCount ∧
    (handleTraining initialState true demoShot 5).calibrationData =
      initialState.calibrationData :=
  training_not_calibrated_rejected initialState rfl true demoShot 5

/-- C4: every scored shot fires exactly one feedback pattern, by first
match in priority order: elbow deviation beyond tolerance fires the
strong pulse on the elbow-adjacent zone (`HAPTIC_1_PIN`, upper arm);
otherwise wrist deviation beyond tolerance fires the medium pulse on the
wrist zone (`HAPTIC_3_PIN`); otherwise the light double pulse on all
zones. -/
theorem feedback_first_match_priority (shot : FreeThrowData) (cal : CalibrationData) :
    (provideHapticFeedback shot cal).length = 1 ∧
    (|shot.elbowAngle - cal.avgElbowAngle| > ELBOW_ANGLE_TOLERANCE →
      provideHapticFeedback shot cal = [HapticEvent.feedback HAPTIC_1_PIN STRONG 300]) ∧
    (|shot.elbowAngle - cal.avgElbowAngle| ≤ ELBOW_ANGLE_TOLERANCE →
      |shot.wristAngle - cal.avgWristAngle| > WRIST_ANGLE_TOLERANCE →
      provideHapticFeedback shot cal = [HapticEvent.feedback HAPTIC_3_PIN MEDIUM 150]) ∧
    (|shot.elbowAngle - cal.avgElbowAngle| ≤ ELBOW_ANGLE_TOLERANCE →
      |shot.wristAngle - cal.avgWristAngle| ≤ WRIST_ANGLE_TOLERANCE →
      provideHapticFeedback shot cal =
        [HapticEvent.patternFeedback FeedbackZone.ALL_ZONES HapticPattern.DOUBLE_PULSE LIGHT]) := by
  refine ⟨?_, ?_, ?_, ?_⟩
  · by_cases h1 : |shot.elbowAngle - cal.avgElbowAngle| > ELBOW_ANGLE_TOLERANCE
    · simp [provideHapticFeedback, h1]
    · by_cases h2 : |shot.wristAngle - cal.avgWristAngle| > WRIST_ANGLE_TOLERANCE
      · simp [provideHapticFeedback, h1, h2]
      · simp [provideHapticFeedback, h1, h2]
  · intro h1
    simp [provideHapticFeedback, h1]
  · intro h1 h2
    simp [provideHapticFeedback, not_lt.mpr h1, h2]
  · intro h1 h2
    simp [provideHapticFeedback, not_lt.mpr h1, not_lt.mpr h2]

/-- Witness for C4: against the zeroed baseline, `demoShot`'s elbow error
of 90 degrees exceeds the 5-degree tolerance, so the strong elbow pulse
fires alone. -/
theorem feedback_first_match_priority_witness :
    provideHapticFeedback demoShot initCalibrationData =
      [HapticEvent.feedback HAPTIC_1_PIN STRONG 300] :=
  (feedback_first_match_priority demoShot initCalibrationData).2.1
    (by norm_num [demoShot, initCalibrationData, ELBOW_ANGLE_TOLERANCE])

/-- While Idle, the detector stays Idle on any magnitude that does not
exceed the shot detection threshold; in particular a magnitude below
`MOTION_THRESHOLD` cannot start a shot. -/
theorem detectorRun_stays_idle (samples : List (ℚ × ℕ)) :
    ∀ d : ShotDetector, d.inShot = false →
    (∀ sm ∈ samples, sm.1 < MOTION_THRESHOLD) →
    (detectorRun d samples).inShot = false := by
  induction samples with
  | nil => intro d hd _; exact hd
  | cons sm rest ih =>
    intro d hd hall
    have hmag : sm.1 < MOTION_THRESHOLD := hall sm (by simp)
    have hnot : ¬ sm.1 > SHOT_DETECTION_THRESHOLD := by
      have : MOTION_THRESHOLD < SHOT_DETECTION_THRESHOLD := by
        norm_num [MOTION_THRESHOLD, SHOT_DETECTION_THRESHOLD]
      intro hgt
      exact absurd (lt_trans hmag this) (not_lt.mpr (le_of_lt hgt))
    have hstep : detectorStep d sm.1 sm.2 = d := by
      simp [detectorStep, hd, hnot]
    show (detectorRun (detectorStep d sm.1 sm.2) rest).inShot = false
    rw [hstep]
    exact ih d hd (fun x hx => hall x (by simp [hx]))

/-- C5: for every sample sequence whose filtered magnitudes all stay
below `MOTION_THRESHOLD`, the detector started Idle is still Idle after
every prefix of the sequence (it never transitions to InShot); and one
step from Idle enters InShot exactly when the current magnitude exceeds
`SHOT_DETECTION_THRESHOLD`. -/
theorem shot_detector_idle_below_threshold (samples : List (ℚ × ℕ))
    (h : ∀ sm ∈ samples, sm.1 < MOTION_THRESHOLD) :
    (∀ n : ℕ, (detectorRun idleDetector (samples.take n)).inShot = false) ∧
    (∀ (d : ShotDetector) (mag : ℚ) (t : ℕ), d.inShot = false →
      ((detectorStep d mag t).inShot = true ↔ mag > SHOT_DETECTION_THRESHOLD)) := by
  constructor
  · intro n
    exact detectorRun_stays_idle (samples.take n) idleDetector rfl
      (fun sm hsm => h sm (List.mem_of_mem_take hsm))
  · intro d mag t hd
    by_cases hm : mag > SHOT_DETECTION_THRESHOLD
    · simp [detectorStep, hd, hm]
    · simp [detectorStep, hd, hm]

/-- Witness for C5: a quiet two-sample trace keeps the detector Idle, and
a single 20000-magnitude sample flips Idle to InShot. -/
theorem shot_detector_idle_below_threshold_witness :
    (detectorRun idleDetector ([((2:ℚ), (0:ℕ)), ((3:ℚ), (10:ℕ))].take 2)).inShot = false ∧
    ((detectorStep idleDetector 20000 5).inShot = true ↔
      (20000 : ℚ) > SHOT_DETECTION_THRESHOLD) :=
  ⟨(shot_detector_idle_below_threshold [((2:ℚ), (0:ℕ)), ((3:ℚ), (10:ℕ))]
      (by norm_num [MOTION_THRESHOLD])).1 2,
   (shot_detector_idle_below_threshold []
      (by simp)).2 idleDetector 20000 5 rfl⟩

/-! ### Haptic controller invariants -/

theorem clamp255_range (x : ℤ) : 0 ≤ clamp255 x ∧ clamp255 x ≤ 255 := by
  unfold clamp255
  omega

/-- One motor update keeps the intensity within [0,255]. -/
theorem motorUpdate_range (m : HapticMotor) (now : ℕ)
    (h : 0 ≤ m.currentIntensity ∧ m.currentIntensity ≤ 255) :
    0 ≤ (motorUpdate m now).currentIntensity ∧
      (motorUpdate m now).currentIntensity ≤ 255 := by
  unfold motorUpdate
  split
  · exact h
  · split
    · simp [motorIdle]
    · exact clamp255_range _

/-- One controller operation preserves the [0,255] intensity invariant. -/
theorem hapticStep_range (sys : HapticSystem) (op : HapticOp)
    (h : intensityInRange sys) : intensityInRange (hapticStep sys op) := by
  cases op with
  | trig pin intensity dur now =>
    simp only [hapticStep, triggerHapticFeedback]
    split
    · exact h
    · intro m hm
      simp only [List.mem_map] at hm
      obtain ⟨m0, hm0, rfl⟩ := hm
      split
      · simp [motorTrigger]
        have := clamp255_range intensity
        exact ⟨this.1, this.2⟩
      · exact h m0 hm0
  | upd now =>
    simp only [hapticStep, updateHapticFeedback]
    split
    · intro m hm
      simp only [List.mem_map] at hm
      obtain ⟨m0, _, rfl⟩ := hm
      simp [motorIdle]
    · intro m hm
      simp only [List.mem_map] at hm
      obtain ⟨m0, hm0, rfl⟩ := hm
      exact motorUpdate_range m0 now (h m0 hm0)
  | estop =>
    intro m hm
    simp only [hapticStep, emergencyStop, List.mem_map] at hm
    obtain ⟨m0, _, rfl⟩ := hm
    simp [motorIdle]
  | setOverheat b => exact h

/-- A whole operation sequence preserves the intensity invariant. -/
theorem hapticRun_range (ops : List HapticOp) : ∀ sys : HapticSystem,
    intensityInRange sys → intensityInRange (hapticRun sys ops) := by
  induction ops with
  | nil => intro sys h; exact h
  | cons op rest ih =>
    intro sys h
    exact ih (hapticStep sys op) (hapticStep_range sys op h)

/-- C7: a freshly constructed motor starts with intensity 0, and for
every finite sequence of controller operations starting from a system
whose motors are in range, every motor's intensity stays within [0,255]
after every call. -/
theorem motor_intensity_in_range (p : ℕ) (sys : HapticSystem)
    (ops : List HapticOp) (h : intensityInRange sys) :
    (HapticMotor.ofPin p).currentIntensity = 0 ∧
    intensityInRange (hapticRun sys ops) :=
  ⟨rfl, hapticRun_range ops sys h⟩

/-- The three motors of `initHapticSystem` (`src/haptic.h` pins 25-27). -/
def initHaptic : HapticSystem :=
  { motors := [HapticMotor.ofPin HAPTIC_1_PIN, HapticMotor.ofPin HAPTIC_2_PIN,
               HapticMotor.ofPin HAPTIC_3_PIN]
    overheated := false }

/-- Witness for C7: an out-of-range trigger command (intensity 999)
followed by an update still leaves all three motors within [0,255]. -/
theorem motor_intensity_in_range_witness :
    (HapticMotor.ofPin HAPTIC_1_PIN).currentIntensity = 0 ∧
    intensityInRange (hapticRun initHaptic
      [HapticOp.trig HAPTIC_1_PIN 999 100 0, HapticOp.upd 50]) :=
  motor_intensity_in_range HAPTIC_1_PIN initHaptic
    [HapticOp.trig HAPTIC_1_PIN 999 100 0, HapticOp.upd 50]
    (by intro m hm; fin_cases hm <;> simp [HapticMotor.ofPin])

/-- `emergencyStop` leaves every motor Idle. -/
theorem emergencyStop_allIdle (sys : HapticSystem) : allIdle (emergencyStop sys) := by
  intro m hm
  simp only [emergencyStop, List.mem_map] at hm
  obtain ⟨m0, _, rfl⟩ := hm
  simp [motorIdle]

/-- While the overheat guard stays tripped, every controller operation
other than clearing the guard keeps all motors Idle and the guard set. -/
theorem hapticStep_latched (sys : HapticSystem) (op : HapticOp)
    (hov : sys.overheated = true) (hidle : allIdle sys)
    (hop : clearsOverheat op = false) :
    (hapticStep sys op).overheated = true ∧ allIdle (hapticStep sys op) := by
  cases op with
  | trig pin intensity dur now =>
    have hstep : hapticStep sys (HapticOp.trig pin intensity dur now) = sys := by
      simp [hapticStep, triggerHapticFeedback, hov]
    rw [hstep]
    exact ⟨hov, hidle⟩
  | upd now =>
    refine ⟨by simp [hapticStep, updateHapticFeedback, hov], ?_⟩
    intro m hm
    simp only [hapticStep, updateHapticFeedback, hov, if_pos, List.mem_map] at hm
    obtain ⟨m0, _, rfl⟩ := hm
    simp [motorIdle]
  | estop =>
    exact ⟨hov, emergencyStop_allIdle sys⟩
  | setOverheat b =>
    cases b with
    | false => simp [clearsOverheat] at hop
    | true => exact ⟨rfl, hidle⟩

/-- The latched-Idle invariant extended to operation sequences. -/
theorem hapticRun_latched (ops : List HapticOp) : ∀ sys : HapticSystem,
    sys.overheated = true → allIdle sys →
    (∀ op ∈ ops, clearsOverheat op = false) →
    allIdle (hapticRun sys ops) := by
  induction ops with
  | nil => intro sys _ hidle _; exact hidle
  | cons op rest ih =>
    intro sys hov hidle hops
    have hstep := hapticStep_latched sys op hov hidle (hops op (by simp))
    exact ih (hapticStep sys op) hstep.1 hstep.2
      (fun x hx => hops x (by simp [hx]))

/-- C8: after `emergencyStop()` with the overheat guard tripped, every
motor is Idle and remains Idle under any further trigger/update/stop
sequence that does not clear the guard (new triggers are rejected); and
`emergencyStop()` is idempotent from any state. -/
theorem emergency_stop_latched (sys : HapticSystem) (ops : List HapticOp)
    (hov : sys.overheated = true)
    (hops : ∀ op ∈ ops, clearsOverheat op = false) :
    allIdle (emergencyStop sys) ∧
    allIdle (hapticRun (emergencyStop sys) ops) ∧
    ∀ t : HapticSystem, emergencyStop (emergencyStop t) = emergencyStop t := by
  refine ⟨emergencyStop_allIdle sys, ?_, ?_⟩
  · exact hapticRun_latched ops (emergencyStop sys) hov
      (emergencyStop_allIdle sys) hops
  · intro t
    have hmap : motorIdle ∘ motorIdle = motorIdle := funext fun m => rfl
    simp only [emergencyStop, List.map_map, hmap]

/-- Witness for C8: an overheated system, emergency-stopped, rejects a
strong trigger and stays all-Idle. -/
theorem emergency_stop_latched_witness :
    allIdle (emergencyStop { initHaptic with overheated := true }) ∧
    allIdle (hapticRun (emergencyStop { initHaptic with overheated := true })
      [HapticOp.trig HAPTIC_1_PIN 255 300 0, HapticOp.upd 10]) ∧
    ∀ t : HapticSystem, emergencyStop (emergencyStop t) = emergencyStop t :=
  emergency_stop_latched { initHaptic with overheated := true }
    [HapticOp.trig HAPTIC_1_PIN 255 300 0, HapticOp.upd 10] rfl
    (by intro op hop; fin_cases hop <;> rfl)

/-! ### Determinism and reachability -/

/-- C9: shot analysis and trajectory averaging are deterministic: for a
fixed tuple of oracle draws the analysis relation admits exactly one
output, and for a fixed list of contributed trajectories and target
length the resample-and-average relation admits exactly one output. -/
theorem analysis_deterministic :
    (∀ (r : RandInput) (o1 o2 : FreeThrowData),
      AnalyzeRel r o1 → AnalyzeRel r o2 → o1 = o2) ∧
    (∀ (ts : List (List Vector3D)) (n : ℕ) (o1 o2 : List Vector3D),
      TrajAvgRel ts n o1 → TrajAvgRel ts n o2 → o1 = o2) := by
  constructor
  · intro r o1 o2 h1 h2
    cases h1
    cases h2
    rfl
  · intro ts n o1 o2 h1 h2
    cases h1
    cases h2
    rfl

/-- Witness for C9: determinism instantiated at a concrete oracle tuple
and a concrete one-point trajectory. -/
theorem analysis_deterministic_witness :
    analyzeShotForm ⟨1, 2, 3, 4, 5⟩ = analyzeShotForm ⟨1, 2, 3, 4, 5⟩ ∧
    averageTrajectories [[Vector3D.mk 1 2 3]] 2 =
      averageTrajectories [[Vector3D.mk 1 2 3]] 2 :=
  ⟨analysis_deterministic.1 ⟨1, 2, 3, 4, 5⟩ _ _ (AnalyzeRel.run _) (AnalyzeRel.run _),
   analysis_deterministic.2 [[Vector3D.mk 1 2 3]] 2 _ _
     (TrajAvgRel.run _ _) (TrajAvgRel.run _ _)⟩

/-- `cycleState` never moves a non-calibration state into calibration. -/
theorem cycleState_ne_calibration (st : SystemState)
    (h : st ≠ SystemState.CALIBRATION) :
    cycleState st ≠ SystemState.CALIBRATION := by
  cases st with
  | STANDBY => simp [cycleState]
  | TRAINING => simp [cycleState]
  | DATA_REVIEW => simp [cycleState]
  | CALIBRATION => exact absurd rfl h

/-- `handleTraining` either returns to standby or keeps the current
system state. -/
theorem handleTraining_state (s : GlobalState) (motionDetected : Bool)
    (shotData : FreeThrowData) (now : ℕ) :
    (handleTraining s motionDetected shotData now).currentState =
        SystemState.STANDBY ∨
      (handleTraining s motionDetected shotData now).currentState =
        s.currentState := by
  unfold handleTraining
  split
  · left; rfl
  · split
    · right; rfl
    · right; rfl

/-- C10: from the program start state, `currentState` never equals
`CALIBRATION` in any reachable state of the main loop; and
`cycleSystemState` maps `STANDBY` to `TRAINING`, `TRAINING` to
`DATA_REVIEW`, `DATA_REVIEW` to `STANDBY`, and leaves `CALIBRATION`
unchanged (so no operation of the loop ever sets `CALIBRATION`). -/
theorem calibration_state_unreachable :
    (∀ s : GlobalState, Reachable s → s.currentState ≠ SystemState.CALIBRATION) ∧
    cycleState SystemState.STANDBY = SystemState.TRAINING ∧
    cycleState SystemState.TRAINING = SystemState.DATA_REVIEW ∧
    cycleState SystemState.DATA_REVIEW = SystemState.STANDBY ∧
    cycleState SystemState.CALIBRATION = SystemState.CALIBRATION := by
  refine ⟨?_, rfl, rfl, rfl, rfl⟩
  intro s hs
  induction hs with
  | init => simp [initialState]
  | step s i _ ih =>
    cases hcs : s.currentState with
    | STANDBY => simp [loopStep, hcs]
    | CALIBRATION => exact absurd hcs ih
    | TRAINING =>
      simp only [loopStep, hcs]
      rcases handleTraining_state s i.motionDetected i.shotData i.now with h | h
      · rw [h]; simp
      · rw [h, hcs]; simp
    | DATA_REVIEW =>
      simp only [loopStep, hcs, handleDataReview]
      simp
  | cycle s _ ih =>
    simp only [cycleSystemState]
    exact cycleState_ne_calibration s.currentState ih

/-- Witness for C10: the start state is reachable and is not in
calibration mode. -/
theorem calibration_state_unreachable_witness :
    initialState.currentState ≠ SystemState.CALIBRATION :=
  calibration_state_unreachable.1 initialState Reachable.init

end FreeThrow
